import Mathlib

/-
Verification development for the relab-rpi-cam-plugin camera session manager.

The definitions below are a shallow embedding of the Python sources:
  app/api/services/camera_manager.py      (CameraManager)
  app/api/services/stream.py              (ffmpeg output, stream URLs, validation)
  src/relab_rpi_cam_plugin/api/models/stream.py   (Stream, StreamView, errors)
  src/relab_rpi_cam_plugin/utils/files.py (clear_directory)
  src/relab_rpi_cam_plugin/core/config.py (settings constants)
  app/api/dependencies/camera_management.py (standby and max-duration tasks)

External effects (the picamera2 hardware driver, HTTP validation, the file
system and the clock) are modelled by an explicit environment record that
fixes the outcome of each external call made during one operation, and each
operation additionally returns the list of external calls it issued.
-/

/-- CameraMode enum from app/api/models/camera.py. -/
inductive CameraMode
  | photo
  | video
deriving DecidableEq, Repr

/-- StreamMode enum from models/stream.py. The source value LOCAL is rendered
as localMode because local is a Lean keyword. -/
inductive StreamMode
  | youtube
  | localMode
deriving DecidableEq, Repr

/-- YoutubeStreamConfig from models/stream.py: stream key and broadcast key. -/
structure YoutubeStreamConfig where
  stream_key : String
  broadcast_key : String
deriving DecidableEq, Repr

/-- The Stream session sub-state from models/stream.py (class Stream): all
fields default to None at construction. -/
structure CamStream where
  mode : Option StreamMode
  url : Option String
  started_at : Option Int
  youtube_config : Option YoutubeStreamConfig
deriving DecidableEq, Repr

/-- A fresh Stream() instance: every field is None. -/
def CamStream.empty : CamStream := ⟨none, none, none, none⟩

/-- Stream.is_active property: the stream is active iff mode is not None. -/
def CamStream.is_active (s : CamStream) : Bool := s.mode.isSome

/-- Camera properties and capture metadata snapshots are opaque payloads
obtained from the hardware; their internal structure is irrelevant to the
claims, so they are modelled as tokens. -/
structure ImageMetadata where
  camera_properties : Nat
  capture_metadata : Nat
deriving DecidableEq, Repr

/-- StreamMetadata from models/stream.py, built by from_metadata from the
camera properties and capture metadata snapshots. -/
structure StreamMetadata where
  camera_properties : Nat
  capture_metadata : Nat
deriving DecidableEq, Repr

/-- StreamView from models/stream.py: API projection of an active stream. -/
structure StreamView where
  mode : StreamMode
  url : String
  started_at : Int
  youtube_config : Option YoutubeStreamConfig
  metadata : StreamMetadata
deriving DecidableEq, Repr

/-- ImageCaptureResponse from capture_jpeg: id, URL, metadata, expiry. -/
structure ImageCaptureResponse where
  image_id : Nat
  image_url : String
  metadata : ImageMetadata
  expires_at : Int
deriving DecidableEq, Repr

/-- CameraStatusView from app/api/models/camera.py. -/
structure CameraStatusView where
  current_mode : Option CameraMode
  stream : Option StreamView
deriving DecidableEq, Repr

/-- The mutable state owned by CameraManager (camera handle, current mode,
stream sub-state). The Picamera2 handle is opaque and modelled by a token. -/
structure CamState where
  camera : Option Nat
  current_mode : Option CameraMode
  stream : CamStream
deriving DecidableEq, Repr

/-- CameraManager.__init__: camera None, current_mode None, empty Stream. -/
def initState : CamState := ⟨none, none, CamStream.empty⟩

/-- Faults raised by the embedded code. Each constructor corresponds to one
exception raised in the sources; externalError stands for an exception
propagating out of an external (hardware / file system) call, carrying a name
for the failing call. -/
inductive CamError
  | youtubeConfigRequired
  | youtubeValidation (stream_key : String)
  | activeStream (mode : Option StreamMode) (url : Option String)
  | runtimeError (msg : String)
  | streamState (msg : String)
  | externalError (msg : String)
deriving DecidableEq, Repr

/-- settings.base_url default. -/
def base_url : String := "http://127.0.0.1:8018/"

/-- urljoin of base_url with /stream/watch, used by get_stream_url for LOCAL. -/
def local_watch_url : String := "http://127.0.0.1:8018/stream/watch"

/-- settings.hls_ttl_s default (60 seconds). -/
def hls_ttl_s : Int := 60

/-- settings.image_ttl_s default (3600 seconds). -/
def image_ttl_s : Int := 3600

/-- settings.max_stream_duration_s default (5 hours). -/
def max_stream_duration_s : Int := 18000

/-- CameraManager.lock_timeout, set to 10 in __init__. -/
def lock_timeout : Nat := 10

/-- Message of RuntimeError raised when stop_streaming finds no stream. -/
def noStreamActiveMsg : String := "No stream active"

/-- Message of RuntimeError raised when capture_metadata returns None. -/
def captureMetadataFailMsg : String := "Failed to capture image metadata"

/-- Message of RuntimeError raised when get_stream_info returns None after a
successful start sequence. -/
def streamInfoNoneMsg : String := "Failed to get stream information"

/-- Message prefix of the RuntimeError wrapping any failure of the start
sequence inside start_streaming. -/
def streamStartWrapPrefix : String := "Failed to start streaming: "

/-- Message of the RuntimeError raised by _camera_lock on acquisition
timeout (the interpolated TimeoutError text is empty). -/
def lockTimeoutMsg : String := "Failed to acquire camera lock - timeout error: "

/-- Placeholder message for a failing Picamera2 constructor call. -/
def createFailMsg : String := "Picamera2 constructor failed"

/-- Placeholder message for a failing camera.start call. -/
def hwStartFailMsg : String := "camera start failed"

/-- Placeholder message for a failing camera.stop call. -/
def hwStopFailMsg : String := "camera stop failed"

/-- Placeholder message for a failing camera.close call. -/
def hwCloseFailMsg : String := "camera close failed"

/-- Placeholder message for a failing camera.capture_image call. -/
def captureImageFailMsg : String := "capture_image failed"

/-- Placeholder message for a failing image save call. -/
def saveFailMsg : String := "image save failed"

/-- Placeholder message for a failing FfmpegOutput construction. -/
def ffmpegFailMsg : String := "FfmpegOutput construction failed"

/-- Placeholder message for a failing camera.start_recording call. -/
def startRecordingFailMsg : String := "start_recording failed"

/-- Placeholder message for a failing camera.stop_recording call. -/
def stopRecordingFailMsg : String := "stop_recording failed"

/-- Placeholder message for a failing file unlink during clear_directory. -/
def clearFailMsg : String := "file unlink failed"

/-- Message of StreamStateError when mode is None while active. -/
def ssModeMsg : String := "Stream mode is None but stream is marked as active"

/-- Message of StreamStateError when url is None while active. -/
def ssUrlMsg : String := "Stream URL is None but stream is marked as active"

/-- Message of StreamStateError when started_at is None while active. -/
def ssStartedMsg : String := "Stream start time is None but stream is marked as active"

/-- Rendering of a fault as Python str(e), used when start_streaming builds
the wrapping RuntimeError message with an f-string. -/
def CamError.describe : CamError → String
  | .youtubeConfigRequired => "Broadcast and stream key required for YouTube streaming."
  | .youtubeValidation k => "Invalid YouTube stream key: " ++ k ++ "."
  | .activeStream _ _ => "Stream active. Stop streaming first."
  | .runtimeError m => m
  | .streamState m => m
  | .externalError m => m

/-- The RuntimeError wrapping a cause raised inside the start_streaming try
block: RuntimeError over an f-string beginning with the fixed prefix. -/
def wrapStart (e : CamError) : CamError :=
  .runtimeError (streamStartWrapPrefix ++ e.describe)

/-- True iff the result is the generic stream-start RuntimeError wrapper,
recognised by its fixed message prefix. -/
def isStreamStartWrap {α : Type} : Except CamError α → Bool
  | .error (.runtimeError m) => streamStartWrapPrefix.data.isPrefixOf m.data
  | _ => false

/-- External calls issued by an operation, in order.  hw-prefixed events are
calls into the Picamera2 hardware driver; httpValidate is the YouTube
validation POST; fileSave and fileClear are file-system effects. -/
inductive Event
  | hwCreate
  | hwConfigure (mode : CameraMode)
  | hwStart
  | hwStop
  | hwClose
  | hwCaptureImage
  | hwCaptureMetadata
  | hwStartRecording
  | hwStopRecording
  | httpValidate
  | fileSave
  | fileClear
deriving DecidableEq, Repr

/-- Outcomes of the external calls an operation may issue, fixed up front:
a false flag means the corresponding external call fails (raises), now is
the current clock reading, and the remaining fields are the payloads
returned by successful external calls. -/
structure Env where
  lock_delay : Nat
  create_ok : Bool
  hw_stop_ok : Bool
  hw_start_ok : Bool
  hw_close_ok : Bool
  validate_ok : Bool
  ffmpeg_ok : Bool
  start_recording_ok : Bool
  stop_recording_ok : Bool
  capture_image_ok : Bool
  capture_metadata_ok : Bool
  save_ok : Bool
  clear_ok : Bool
  now : Int
  camera_properties : Nat
  capture_meta : Nat
  image_id : Nat
deriving DecidableEq, Repr

/-- An environment in which every external call succeeds immediately. -/
def envOk : Env :=
  { lock_delay := 0, create_ok := true, hw_stop_ok := true, hw_start_ok := true,
    hw_close_ok := true, validate_ok := true, ffmpeg_ok := true,
    start_recording_ok := true, stop_recording_ok := true,
    capture_image_ok := true, capture_metadata_ok := true, save_ok := true,
    clear_ok := true, now := 0, camera_properties := 0, capture_meta := 0,
    image_id := 0 }

/-- Equality of Except values is decidable when both component types have
decidable equality; core Lean does not provide this instance. -/
instance {ε α : Type} [DecidableEq ε] [DecidableEq α] : DecidableEq (Except ε α) := fun a b =>
  match a, b with
  | .ok x, .ok y =>
    if h : x = y then isTrue (by rw [h]) else isFalse (by intro hh; cases hh; exact h rfl)
  | .error x, .error y =>
    if h : x = y then isTrue (by rw [h]) else isFalse (by intro hh; cases hh; exact h rfl)
  | .ok _, .error _ => isFalse (by intro h; cases h)
  | .error _, .ok _ => isFalse (by intro h; cases h)

/-- Result of one manager operation: the returned value or raised fault, the
manager state afterwards, and the external calls issued. -/
structure Res (α : Type) where
  result : Except CamError α
  state : CamState
  events : List Event
deriving DecidableEq, Repr

/-- CameraManager._setup_camera(mode).  Mirrors camera_manager.py lines
76-97: the active-stream precondition for PHOTO, then under the camera lock
either a Picamera2 construction, an early return when the camera is already
configured for the requested mode, or a stop of the running camera, followed
by configure and start, and finally the current_mode update. -/
def setupCamera (env : Env) (s : CamState) (mode : CameraMode) : Res Nat :=
  if s.stream.is_active && (mode == CameraMode.photo) then
    ⟨.error (.activeStream s.stream.mode s.stream.url), s, []⟩
  else if lock_timeout < env.lock_delay then
    ⟨.error (.runtimeError lockTimeoutMsg), s, []⟩
  else
    match s.camera with
    | none =>
      if env.create_ok then
        let s1 : CamState := { s with camera := some 0 }
        if env.hw_start_ok then
          ⟨.ok 0, { s1 with current_mode := some mode },
            [.hwCreate, .hwConfigure mode, .hwStart]⟩
        else
          ⟨.error (.externalError hwStartFailMsg), s1, [.hwCreate, .hwConfigure mode, .hwStart]⟩
      else
        ⟨.error (.externalError createFailMsg), s, [.hwCreate]⟩
    | some h =>
      if s.current_mode == some mode then
        ⟨.ok h, s, []⟩
      else if env.hw_stop_ok then
        if env.hw_start_ok then
          ⟨.ok h, { s with current_mode := some mode },
            [.hwStop, .hwConfigure mode, .hwStart]⟩
        else
          ⟨.error (.externalError hwStartFailMsg), s, [.hwStop, .hwConfigure mode, .hwStart]⟩
      else
        ⟨.error (.externalError hwStopFailMsg), s, [.hwStop]⟩

/-- Stream._get_info from models/stream.py lines 111-135: None when not
active, otherwise the consistency checks on mode, url and started_at and the
StreamView construction. -/
def streamGetInfo (st : CamStream) (props meta : Nat) : Except CamError (Option StreamView) :=
  if !st.is_active then
    .ok none
  else
    match st.mode with
    | none => .error (.streamState ssModeMsg)
    | some m =>
      match st.url with
      | none => .error (.streamState ssUrlMsg)
      | some u =>
        match st.started_at with
        | none => .error (.streamState ssStartedMsg)
        | some t =>
          .ok (some ⟨m, u, t, st.youtube_config, ⟨props, meta⟩⟩)

/-- CameraManager.get_stream_info, camera_manager.py lines 190-200: when the
camera handle exists and the stream is active, fetch capture metadata from
the hardware (RuntimeError when it returns None) and delegate to
Stream._get_info; otherwise None. The state is never mutated. -/
def getStreamInfo (env : Env) (s : CamState) : Res (Option StreamView) :=
  if s.camera.isSome && s.stream.is_active then
    if env.capture_metadata_ok then
      ⟨streamGetInfo s.stream env.camera_properties env.capture_meta, s, [.hwCaptureMetadata]⟩
    else
      ⟨.error (.runtimeError captureMetadataFailMsg), s, [.hwCaptureMetadata]⟩
  else
    ⟨.ok none, s, []⟩

/-- CameraManager.get_status, camera_manager.py lines 202-204. -/
def getStatus (env : Env) (s : CamState) : Res CameraStatusView :=
  match getStreamInfo env s with
  | ⟨.error e, s1, ev⟩ => ⟨.error e, s1, ev⟩
  | ⟨.ok info, s1, ev⟩ =>
    ⟨.ok ⟨s1.current_mode, if s1.stream.is_active then info else none⟩, s1, ev⟩

/-- Image URL returned by capture_jpeg: urljoin(base_url, /images/id). -/
def imageUrlPrefix : String := "http://127.0.0.1:8018/images/"

/-- CameraManager.capture_jpeg, camera_manager.py lines 99-124: setup for
PHOTO, then under a second lock acquisition capture the frame, capture the
metadata (RuntimeError when None), save the file and compute the expiry
timestamp now + image_ttl_s. -/
def captureJpeg (env : Env) (s : CamState) : Res ImageCaptureResponse :=
  match setupCamera env s CameraMode.photo with
  | ⟨.error e, s1, ev⟩ => ⟨.error e, s1, ev⟩
  | ⟨.ok _cam, s1, ev⟩ =>
    if lock_timeout < env.lock_delay then
      ⟨.error (.runtimeError lockTimeoutMsg), s1, ev⟩
    else if !env.capture_image_ok then
      ⟨.error (.externalError captureImageFailMsg), s1, ev ++ [.hwCaptureImage]⟩
    else if !env.capture_metadata_ok then
      ⟨.error (.runtimeError captureMetadataFailMsg), s1,
        ev ++ [.hwCaptureImage, .hwCaptureMetadata]⟩
    else if !env.save_ok then
      ⟨.error (.externalError saveFailMsg), s1,
        ev ++ [.hwCaptureImage, .hwCaptureMetadata, .fileSave]⟩
    else
      ⟨.ok ⟨env.image_id, imageUrlPrefix ++ toString env.image_id,
          ⟨env.camera_properties, env.capture_meta⟩, env.now + image_ttl_s⟩,
        s1, ev ++ [.hwCaptureImage, .hwCaptureMetadata, .fileSave]⟩

/-- get_ffmpeg_output from app/api/services/stream.py lines 13-46: for
YOUTUBE without a config it raises YoutubeConfigRequiredError, otherwise it
builds the FfmpegOutput object (whose construction may fail). -/
def getFfmpegOutput (env : Env) (mode : StreamMode) (cfg : Option YoutubeStreamConfig) :
    Except CamError Unit :=
  match mode, cfg with
  | .youtube, none => .error .youtubeConfigRequired
  | _, _ => if env.ffmpeg_ok then .ok () else .error (.externalError ffmpegFailMsg)

/-- get_broadcast_url from app/api/services/stream.py lines 56-58. -/
def getBroadcastUrl (cfg : YoutubeStreamConfig) : String :=
  "https://youtube.com/watch?v=" ++ cfg.broadcast_key

/-- get_stream_url from app/api/services/stream.py lines 69-77. -/
def getStreamUrl (mode : StreamMode) (cfg : Option YoutubeStreamConfig) :
    Except CamError String :=
  match mode with
  | .youtube =>
    match cfg with
    | none => .error .youtubeConfigRequired
    | some c => .ok (getBroadcastUrl c)
  | .localMode => .ok local_watch_url

/-- The part of start_streaming after the YouTube config and validation
checks, camera_manager.py lines 136-159: the active-stream check, the VIDEO
setup, then under the lock the try block (ffmpeg output, start_recording,
and the four sequential Stream field assignments) whose failures are wrapped
into the generic RuntimeError, and finally the post-start get_stream_info
call. ev0 carries the events of the preceding validation call. -/
def startStreamingChecked (env : Env) (s : CamState) (mode : StreamMode)
    (cfg : Option YoutubeStreamConfig) (ev0 : List Event) : Res StreamView :=
  if s.stream.is_active then
    ⟨.error (.activeStream s.stream.mode s.stream.url), s, ev0⟩
  else
    match setupCamera env s CameraMode.video with
    | ⟨.error e, s1, ev1⟩ => ⟨.error e, s1, ev0 ++ ev1⟩
    | ⟨.ok _cam, s1, ev1⟩ =>
      if lock_timeout < env.lock_delay then
        ⟨.error (.runtimeError lockTimeoutMsg), s1, ev0 ++ ev1⟩
      else
        match getFfmpegOutput env mode cfg with
        | .error e => ⟨.error (wrapStart e), s1, ev0 ++ ev1⟩
        | .ok _ =>
          if !env.start_recording_ok then
            ⟨.error (wrapStart (.externalError startRecordingFailMsg)), s1,
              ev0 ++ ev1 ++ [.hwStartRecording]⟩
          else
            let s2 : CamState := { s1 with stream := { s1.stream with mode := some mode } }
            match getStreamUrl mode cfg with
            | .error e => ⟨.error (wrapStart e), s2, ev0 ++ ev1 ++ [.hwStartRecording]⟩
            | .ok url =>
              let s3 : CamState :=
                { s2 with stream := ⟨s2.stream.mode, some url, some (env.now - 5), cfg⟩ }
              match getStreamInfo env s3 with
              | ⟨.error e, s4, ev2⟩ =>
                ⟨.error e, s4, ev0 ++ ev1 ++ [.hwStartRecording] ++ ev2⟩
              | ⟨.ok none, s4, ev2⟩ =>
                ⟨.error (.runtimeError streamInfoNoneMsg), s4,
                  ev0 ++ ev1 ++ [.hwStartRecording] ++ ev2⟩
              | ⟨.ok (some v), s4, ev2⟩ =>
                ⟨.ok v, s4, ev0 ++ ev1 ++ [.hwStartRecording] ++ ev2⟩

/-- CameraManager.start_streaming, camera_manager.py lines 126-159: for the
YOUTUBE mode the config-required check and the stream-key validation POST
come first, before the active-stream check and any hardware interaction. -/
def startStreaming (env : Env) (s : CamState) (mode : StreamMode)
    (cfg : Option YoutubeStreamConfig) : Res StreamView :=
  match mode, cfg with
  | .youtube, none => ⟨.error .youtubeConfigRequired, s, []⟩
  | .youtube, some c =>
    if !env.validate_ok then
      ⟨.error (.youtubeValidation c.stream_key), s, [.httpValidate]⟩
    else
      startStreamingChecked env s .youtube (some c) [.httpValidate]
  | .localMode, _ => startStreamingChecked env s .localMode cfg []

/-- CameraManager.stop_streaming, camera_manager.py lines 161-171: under the
lock, when the stream is active and the camera handle exists, stop the
recording, clear the HLS directory when the mode was LOCAL, and reset the
Stream sub-state; otherwise RuntimeError No stream active. -/
def stopStreaming (env : Env) (s : CamState) : Res Unit :=
  if lock_timeout < env.lock_delay then
    ⟨.error (.runtimeError lockTimeoutMsg), s, []⟩
  else if s.stream.is_active && s.camera.isSome then
    if !env.stop_recording_ok then
      ⟨.error (.externalError stopRecordingFailMsg), s, [.hwStopRecording]⟩
    else if s.stream.mode == some StreamMode.localMode then
      if !env.clear_ok then
        ⟨.error (.externalError clearFailMsg), s, [.hwStopRecording, .fileClear]⟩
      else
        ⟨.ok (), { s with stream := CamStream.empty }, [.hwStopRecording, .fileClear]⟩
    else
      ⟨.ok (), { s with stream := CamStream.empty }, [.hwStopRecording]⟩
  else
    ⟨.error (.runtimeError noStreamActiveMsg), s, []⟩

/-- CameraManager.cleanup(force), camera_manager.py lines 173-188: the
active-stream precondition unless forced, the forced stop_streaming, the
image-directory clearing (note: the source passes settings.hls_ttl_s for the
image directory at line 181), and under the lock the hardware stop, close
and handle reset. -/
def cleanup (env : Env) (s : CamState) (force : Bool) : Res Unit :=
  if s.stream.is_active && !force then
    ⟨.error (.activeStream s.stream.mode s.stream.url), s, []⟩
  else
    match
      (if s.stream.is_active then stopStreaming env s else ⟨.ok (), s, []⟩ : Res Unit) with
    | ⟨.error e, s1, ev⟩ => ⟨.error e, s1, ev⟩
    | ⟨.ok _, s1, ev⟩ =>
      if !env.clear_ok then
        ⟨.error (.externalError clearFailMsg), s1, ev ++ [.fileClear]⟩
      else if lock_timeout < env.lock_delay then
        ⟨.error (.runtimeError lockTimeoutMsg), s1, ev ++ [.fileClear]⟩
      else
        match s1.camera with
        | none => ⟨.ok (), s1, ev ++ [.fileClear]⟩
        | some _ =>
          if !env.hw_stop_ok then
            ⟨.error (.externalError hwStopFailMsg), s1, ev ++ [.fileClear, .hwStop]⟩
          else if !env.hw_close_ok then
            ⟨.error (.externalError hwCloseFailMsg), s1, ev ++ [.fileClear, .hwStop, .hwClose]⟩
          else
            ⟨.ok (), { s1 with camera := none, current_mode := none },
              ev ++ [.fileClear, .hwStop, .hwClose]⟩

/-- A directory entry as seen by path.glob in utils/files.py: name, whether
it is a regular file, and its last-modified timestamp. -/
structure FileEntry where
  name : String
  isFile : Bool
  mtime : Int
deriving DecidableEq, Repr

/-- clear_directory from utils/files.py lines 20-33, over a directory
snapshot (none models a non-existent path).  A file is skipped exactly when
the Python condition time_to_live_s and (now - mtime) < time_to_live_s is
truthy, so a None ttl and a zero ttl both delete unconditionally;
non-regular entries are always skipped. -/
def clearDirectory (dir : Option (List FileEntry)) (now : Int) (ttl : Option Int) :
    Option (List FileEntry) :=
  match dir with
  | none => none
  | some entries =>
    some (entries.filter fun f =>
      !f.isFile ||
        (match ttl with
         | some t => decide (t ≠ 0) && decide (now - f.mtime < t)
         | none => false))

/-- cleanup_images from utils/files.py lines 36-38: the periodic janitor
clears the image directory with settings.image_ttl_s. -/
def cleanupImages (dir : Option (List FileEntry)) (now : Int) : Option (List FileEntry) :=
  clearDirectory dir now (some image_ttl_s)

/-- The image-directory clearing performed inside CameraManager.cleanup at
camera_manager.py line 181: clear_directory(settings.image_path,
time_to_live_s=settings.hls_ttl_s) - the TTL argument is hls_ttl_s, not
image_ttl_s. -/
def cleanupClearImages (dir : Option (List FileEntry)) (now : Int) : Option (List FileEntry) :=
  clearDirectory dir now (some hls_ttl_s)

/-- Result of running the _camera_lock context manager around a body: the
returned or raised value, and whether the asyncio.Lock is locked after the
finally clause ran. -/
structure LockRun (α : Type) where
  result : Except CamError α
  lockedAfter : Bool
deriving Repr

/-- The finally clause of _camera_lock, camera_manager.py lines 63-65: the
lock is released whenever it is locked, with no check that this caller is
the one that acquired it. -/
def cameraLockFinally (locked : Bool) : Bool :=
  if locked then false else locked

/-- The _camera_lock context manager, camera_manager.py lines 54-65, run
around a body with a fixed outcome.  heldByOther says whether another
operation holds the lock at entry and availableIn after how many time units
that holder would release it; asyncio.wait_for raises TimeoutError once
lock_timeout time units elapse without acquisition, which the except clause
converts to the RuntimeError, after which the finally clause still releases
the lock held by the other operation. -/
def withCameraLock {α : Type} (heldByOther : Bool) (availableIn : Nat)
    (body : Except CamError α) : LockRun α :=
  if heldByOther && decide (lock_timeout < availableIn) then
    ⟨.error (.runtimeError lockTimeoutMsg), cameraLockFinally true⟩
  else
    ⟨body, cameraLockFinally true⟩

/-- One inbound call into the camera manager, with its environment: the
manager operations plus the two background tasks from
app/api/dependencies/camera_management.py. -/
inductive Call
  | setup (env : Env) (mode : CameraMode)
  | capture (env : Env)
  | startS (env : Env) (mode : StreamMode) (cfg : Option YoutubeStreamConfig)
  | stopS (env : Env)
  | doCleanup (env : Env) (force : Bool)
  | info (env : Env)
  | status (env : Env)
  | standby (env : Env)
  | maxDuration (env : Env)

/-- The manager state left behind by one call (results are discarded).
standby mirrors camera_to_standby: cleanup only when no stream is active.
maxDuration mirrors check_stream_duration: stop_streaming when the stream
age exceeds max_stream_duration_s, with RuntimeError swallowed. -/
def applyCall (s : CamState) (c : Call) : CamState :=
  match c with
  | .setup env mode => (setupCamera env s mode).state
  | .capture env => (captureJpeg env s).state
  | .startS env mode cfg => (startStreaming env s mode cfg).state
  | .stopS env => (stopStreaming env s).state
  | .doCleanup env force => (cleanup env s force).state
  | .info env => (getStreamInfo env s).state
  | .status env => (getStatus env s).state
  | .standby env => if !s.stream.is_active then (cleanup env s false).state else s
  | .maxDuration env =>
    match s.stream.started_at with
    | some t0 =>
      if s.stream.is_active && decide (max_stream_duration_s < env.now - t0) then
        (stopStreaming env s).state
      else s
    | none => s

/-- The manager state after a sequence of calls from construction. -/
def runCalls (cs : List Call) : CamState :=
  cs.foldl applyCall initState

/-- A session state is reachable when some call sequence produces it. -/
def Reachable (s : CamState) : Prop :=
  ∃ cs : List Call, runCalls cs = s

/-- The session invariant: when the stream is active, its url and
started_at are populated, the configured mode is VIDEO and the camera
handle exists. -/
def SessionInv (s : CamState) : Prop :=
  s.stream.mode.isSome = true →
    s.stream.url.isSome = true ∧ s.stream.started_at.isSome = true ∧
    s.current_mode = some CameraMode.video ∧ s.camera.isSome = true

/-- True iff the result is the ActiveStreamError fault. -/
def isActiveStreamErrB {α : Type} : Except CamError α → Bool
  | .error (.activeStream _ _) => true
  | _ => false

/-- True iff the result is the StreamStateError consistency fault of
Stream._get_info. -/
def isStreamStateErrB {α : Type} : Except CamError α → Bool
  | .error (.streamState _) => true
  | _ => false

/-- A concrete session state with an active LOCAL stream, obtained by one
successful start_streaming call from the initial state. -/
def activeState : CamState :=
  (startStreaming envOk initState StreamMode.localMode none).state

/-
Cooperative-concurrency model for two concurrent operations sharing the
manager singleton: task false runs capture_jpeg, task true runs
start_streaming(LOCAL).  Each program counter value is one atomic segment of
the corresponding coroutine (the code between suspension points), and the
scheduler picks which task advances.  Lock acquisition blocks (no timeout
here); hardware calls are traced together with whether the issuing call site
is lexically inside an async-with _camera_lock block in the source.
-/

/-- Trace events of the concurrency model: lock acquisitions and releases
and hardware calls, tagged with the issuing task; hw also records whether
the call site sits inside a guarded block in the source. -/
inductive TEvt
  | acq (t : Bool)
  | rel (t : Bool)
  | hw (t : Bool) (guarded : Bool) (e : Event)
deriving DecidableEq, Repr

/-- Program counter of the capture_jpeg task: the active-stream precheck of
_setup_camera, the guarded setup block, the gap between the two lock
acquisitions, and the guarded capture block. -/
inductive CapPc
  | checkActive
  | acquireSetup
  | setupGo
  | setupConfig
  | setupStart
  | releaseSetup
  | acquireCap
  | capImage
  | capMeta
  | capSave
  | releaseCap
  | finished
  | aborted
deriving DecidableEq, Repr

/-- Program counter of the start_streaming(LOCAL) task: the active-stream
check, the guarded VIDEO setup block, the guarded recording-start block, and
the unguarded get_stream_info metadata fetch after the lock is released. -/
inductive StrPc
  | checkActive
  | acquireSetup
  | setupGo
  | setupConfig
  | setupStart
  | releaseSetup
  | acquireRec
  | recStart
  | recSet
  | infoFetch
  | finished
  | aborted
deriving DecidableEq, Repr

/-- Global state of the two-task model: shared manager state, the asyncio
lock holder, both program counters and the event trace. -/
structure GState where
  cam : CamState
  holder : Option Bool
  apc : CapPc
  bpc : StrPc
  trace : List TEvt
deriving Repr

/-- One atomic step of the capture_jpeg task (happy-path hardware).  Mirrors
capture_jpeg and _setup_camera: the unguarded active-stream precheck, then
create-or-stop, configure, start and current_mode update under the first
lock, release, a second acquisition, and the guarded capture, metadata and
save segment.  A blocked acquisition leaves the state unchanged. -/
def capStep (g : GState) : GState :=
  match g.apc with
  | .checkActive =>
    if g.cam.stream.is_active then { g with apc := .aborted }
    else { g with apc := .acquireSetup }
  | .acquireSetup =>
    match g.holder with
    | none => { g with holder := some false, apc := .setupGo, trace := g.trace ++ [.acq false] }
    | some _ => g
  | .setupGo =>
    match g.cam.camera with
    | none =>
      { g with
        apc := .setupConfig
        trace := g.trace ++ [.hw false true .hwCreate]
        cam := { g.cam with camera := some 0 } }
    | some _ =>
      if g.cam.current_mode == some CameraMode.photo then { g with apc := .releaseSetup }
      else { g with apc := .setupConfig, trace := g.trace ++ [.hw false true .hwStop] }
  | .setupConfig =>
    { g with
      apc := .setupStart
      trace := g.trace ++ [.hw false true (.hwConfigure CameraMode.photo)] }
  | .setupStart =>
    { g with
      apc := .releaseSetup
      trace := g.trace ++ [.hw false true .hwStart]
      cam := { g.cam with current_mode := some CameraMode.photo } }
  | .releaseSetup =>
    { g with holder := none, apc := .acquireCap, trace := g.trace ++ [.rel false] }
  | .acquireCap =>
    match g.holder with
    | none => { g with holder := some false, apc := .capImage, trace := g.trace ++ [.acq false] }
    | some _ => g
  | .capImage =>
    { g with apc := .capMeta, trace := g.trace ++ [.hw false true .hwCaptureImage] }
  | .capMeta =>
    { g with apc := .capSave, trace := g.trace ++ [.hw false true .hwCaptureMetadata] }
  | .capSave => { g with apc := .releaseCap }
  | .releaseCap =>
    { g with holder := none, apc := .finished, trace := g.trace ++ [.rel false] }
  | .finished => g
  | .aborted => g

/-- One atomic step of the start_streaming(LOCAL) task (happy-path
hardware).  Mirrors start_streaming: the active-stream check, the guarded
VIDEO setup, the guarded start_recording plus the Stream field assignments
and release, and then the get_stream_info capture_metadata call which the
source issues outside any lock. -/
def strStep (g : GState) : GState :=
  match g.bpc with
  | .checkActive =>
    if g.cam.stream.is_active then { g with bpc := .aborted }
    else { g with bpc := .acquireSetup }
  | .acquireSetup =>
    match g.holder with
    | none => { g with holder := some true, bpc := .setupGo, trace := g.trace ++ [.acq true] }
    | some _ => g
  | .setupGo =>
    match g.cam.camera with
    | none =>
      { g with
        bpc := .setupConfig
        trace := g.trace ++ [.hw true true .hwCreate]
        cam := { g.cam with camera := some 0 } }
    | some _ =>
      if g.cam.current_mode == some CameraMode.video then { g with bpc := .releaseSetup }
      else { g with bpc := .setupConfig, trace := g.trace ++ [.hw true true .hwStop] }
  | .setupConfig =>
    { g with
      bpc := .setupStart
      trace := g.trace ++ [.hw true true (.hwConfigure CameraMode.video)] }
  | .setupStart =>
    { g with
      bpc := .releaseSetup
      trace := g.trace ++ [.hw true true .hwStart]
      cam := { g.cam with current_mode := some CameraMode.video } }
  | .releaseSetup =>
    { g with holder := none, bpc := .acquireRec, trace := g.trace ++ [.rel true] }
  | .acquireRec =>
    match g.holder with
    | none => { g with holder := some true, bpc := .recStart, trace := g.trace ++ [.acq true] }
    | some _ => g
  | .recStart =>
    { g with bpc := .recSet, trace := g.trace ++ [.hw true true .hwStartRecording] }
  | .recSet =>
    { g with
      holder := none
      bpc := .infoFetch
      trace := g.trace ++ [.rel true]
      cam := { g.cam with stream :=
        ⟨some StreamMode.localMode, some local_watch_url, some (-5), none⟩ } }
  | .infoFetch =>
    if g.cam.camera.isSome && g.cam.stream.is_active then
      { g with bpc := .finished, trace := g.trace ++ [.hw true false .hwCaptureMetadata] }
    else { g with bpc := .finished }
  | .finished => g
  | .aborted => g

/-- One scheduler step: advance the chosen task by one atomic segment. -/
def gstep (g : GState) (t : Bool) : GState := if t then strStep g else capStep g

/-- Initial global state: fresh manager, free lock, both tasks at entry. -/
def ginit : GState := ⟨initState, none, .checkActive, .checkActive, []⟩

/-- Run the two-task system under a given schedule. -/
def grun (sched : List Bool) : GState := sched.foldl gstep ginit

/-- Checker automaton over a trace: tracks the lock holder through acq and
rel events and verifies that every guarded hardware event is issued by the
task currently holding the lock. -/
def chkStep (st : Option Bool × Bool) (e : TEvt) : Option Bool × Bool :=
  match e with
  | .acq t => (some t, st.2)
  | .rel _ => (none, st.2)
  | .hw t g _ => (st.1, st.2 && (!g || st.1 == some t))

/-- Run the checker over a whole trace from the free-lock state. -/
def chkRun (tr : List TEvt) : Option Bool × Bool := tr.foldl chkStep (none, true)

/-- A trace is guarded-atomic when every guarded hardware event was issued
while its task held the lock. -/
def guardedAtomic (tr : List TEvt) : Bool := (chkRun tr).2

/-- Pc values at which the capture task holds the camera lock. -/
def aInside : CapPc → Bool
  | .setupGo | .setupConfig | .setupStart | .releaseSetup
  | .capImage | .capMeta | .capSave | .releaseCap => true
  | _ => false

/-- Pc values at which the streaming task holds the camera lock. -/
def bInside : StrPc → Bool
  | .setupGo | .setupConfig | .setupStart | .releaseSetup
  | .recStart | .recSet => true
  | _ => false

/-- Invariant of the two-task model: the lock holder is exactly the task
inside a guarded block, and the checker accepts the trace so far with the
current holder as its state. -/
def GInv (g : GState) : Prop :=
  (g.holder = some false ↔ aInside g.apc = true) ∧
  (g.holder = some true ↔ bInside g.bpc = true) ∧
  chkRun g.trace = (g.holder, true)

/-- The hardware-call trace projected to the issuing tasks, in order. -/
def hwTasks (tr : List TEvt) : List Bool :=
  tr.filterMap fun e =>
    match e with
    | .hw t _ _ => some t
    | _ => none

/-- Number of maximal constant runs in a list; three or more runs over two
task ids means one task issued hardware calls both before and after a call
of the other task. -/
def runsCount : List Bool → Nat
  | [] => 0
  | [_] => 1
  | a :: b :: rest => (if a == b then 0 else 1) + runsCount (b :: rest)

/-- A schedule that interleaves the two operations: the capture task runs
through its setup block, then the streaming task runs to completion, then
the capture task resumes its capture block. -/
def ceSched : List Bool :=
  List.replicate 6 false ++ List.replicate 10 true ++ List.replicate 3 false

/-- Environment in which only the post-start capture_metadata call fails. -/
def ceMetaFailEnv : Env := { envOk with capture_metadata_ok := false }

/-- Environment in which only the FfmpegOutput construction fails. -/
def ceFfmpegFailEnv : Env := { envOk with ffmpeg_ok := false }

/-- A session already open in PHOTO mode with no active stream. -/
def photoReadyState : CamState := ⟨some 0, some CameraMode.photo, CamStream.empty⟩

/-- The expiry timestamp inside a capture result, when it succeeded. -/
def expiryOf (r : Res ImageCaptureResponse) : Option Int :=
  match r.result with
  | .ok v => some v.expires_at
  | .error _ => none

/-- Name of a captured image file used in concrete scenarios. -/
def imgName : String := "img.jpg"

/-- A captured image saved at time 0 as seen by the file system. -/
def capturedEntry : FileEntry := ⟨imgName, true, 0⟩

/-- Name of a file with a modification time in the future. -/
def futureName : String := "future.jpg"

/-- A regular file whose mtime lies 100 units in the future. -/
def futureFile : FileEntry := ⟨futureName, true, 100⟩

/-- Name of a file exactly at the TTL boundary. -/
def boundaryName : String := "boundary.jpg"

/-- Name of a file younger than the TTL. -/
def youngName : String := "young.jpg"

/-- Name of a subdirectory entry. -/
def subdirName : String := "subdir"

/-- A regular file whose age at time 60 is exactly 60. -/
def boundaryFile : FileEntry := ⟨boundaryName, true, 0⟩

/-- A regular file whose age at time 60 is 50. -/
def youngFile : FileEntry := ⟨youngName, true, 10⟩

/-- A subdirectory in the cleared directory. -/
def dirEntry : FileEntry := ⟨subdirName, false, 0⟩

/-- A demonstration directory listing for clear_directory. -/
def demoDir : List FileEntry := [boundaryFile, youngFile, dirEntry]

/-- What clear_directory leaves of demoDir at time 60 with ttl 60. -/
def demoCleared : List FileEntry := [youngFile, dirEntry]

/-- True iff an Except value is a success. -/
def isOkB {α : Type} : Except CamError α → Bool
  | .ok _ => true
  | .error _ => false

theorem setupCamera_stream (env : Env) (s : CamState) (mode : CameraMode) :
    (setupCamera env s mode).state.stream = s.stream := by
  unfold setupCamera
  repeat' split
  all_goals rfl

theorem setupCamera_ok_shape (env : Env) (s : CamState) (mode : CameraMode)
    (hok : isOkB (setupCamera env s mode).result = true) :
    (setupCamera env s mode).state.current_mode = some mode ∧
      (setupCamera env s mode).state.camera.isSome = true := by
  revert hok
  unfold setupCamera
  repeat' split
  all_goals simp_all [isOkB]

theorem getStreamInfo_state (env : Env) (s : CamState) :
    (getStreamInfo env s).state = s := by
  unfold getStreamInfo
  repeat' split
  all_goals rfl

theorem getStatus_state (env : Env) (s : CamState) :
    (getStatus env s).state = s := by
  unfold getStatus
  split
  all_goals rename_i heq
  all_goals have h := getStreamInfo_state env s
  all_goals rw [heq] at h
  all_goals simpa using h

theorem setupCamera_inv (env : Env) (s : CamState) (mode : CameraMode)
    (hInv : SessionInv s) : SessionInv (setupCamera env s mode).state := by
  unfold SessionInv at hInv ⊢
  cases mode
  all_goals unfold setupCamera
  all_goals repeat' split
  all_goals intro hact
  all_goals simp_all [CamStream.is_active]

theorem stopStreaming_inv (env : Env) (s : CamState)
    (hInv : SessionInv s) : SessionInv (stopStreaming env s).state := by
  unfold SessionInv at hInv ⊢
  unfold stopStreaming
  repeat' split
  all_goals intro hact
  all_goals simp_all [CamStream.is_active, CamStream.empty]

theorem stopStreaming_ok_stream (env : Env) (s : CamState)
    (hok : isOkB (stopStreaming env s).result = true) :
    (stopStreaming env s).state.stream = CamStream.empty := by
  revert hok
  unfold stopStreaming
  repeat' split
  all_goals simp_all [isOkB]

theorem captureJpeg_inv (env : Env) (s : CamState)
    (hInv : SessionInv s) : SessionInv (captureJpeg env s).state := by
  unfold captureJpeg
  split
  all_goals rename_i heq
  · rename_i e s1 ev
    have h := setupCamera_inv env s CameraMode.photo hInv
    rw [heq] at h
    simpa using h
  · rename_i cam s1 ev
    have h := setupCamera_inv env s CameraMode.photo hInv
    rw [heq] at h
    repeat' split
    all_goals simpa using h

theorem startStreamingChecked_inv (env : Env) (s : CamState) (mode : StreamMode)
    (cfg : Option YoutubeStreamConfig) (ev0 : List Event)
    (hInv : SessionInv s) (u : String) (hurl : getStreamUrl mode cfg = .ok u) :
    SessionInv (startStreamingChecked env s mode cfg ev0).state := by
  unfold startStreamingChecked
  split
  · simpa using hInv
  · rename_i hna
    split
    all_goals rename_i heq
    · rename_i e s1 ev1
      have h := setupCamera_inv env s CameraMode.video hInv
      rw [heq] at h
      simpa using h
    · rename_i cam s1 ev1
      have hstr : s1.stream = s.stream := by
        have h := setupCamera_stream env s CameraMode.video
        rw [heq] at h
        simpa using h
      have hshape := setupCamera_ok_shape env s CameraMode.video (by rw [heq]; rfl)
      rw [heq] at hshape
      simp at hshape
      obtain ⟨hmode, hcam⟩ := hshape
      have hna1 : s1.stream.mode.isSome = false := by
        rw [hstr]
        simpa [CamStream.is_active] using hna
      split
      · intro hact
        simp_all
      · split
        · intro hact
          simp_all
        · split
          · intro hact
            simp_all
          · rw [hurl]
            dsimp only
            split
            all_goals rename_i s4 ev2 heq2
            all_goals have h4 := congrArg Res.state heq2
            all_goals rw [getStreamInfo_state] at h4
            all_goals simp at h4
            all_goals rw [← h4]
            all_goals intro hact
            all_goals exact ⟨by simp, by simp, by simpa using hmode, by simpa using hcam⟩

theorem startStreaming_inv (env : Env) (s : CamState) (mode : StreamMode)
    (cfg : Option YoutubeStreamConfig)
    (hInv : SessionInv s) : SessionInv (startStreaming env s mode cfg).state := by
  unfold startStreaming
  repeat' split
  · simpa using hInv
  · simpa using hInv
  · rename_i c h
    exact startStreamingChecked_inv env s StreamMode.youtube (some c) [Event.httpValidate]
      hInv (getBroadcastUrl c) rfl
  · exact startStreamingChecked_inv env s StreamMode.localMode _ []
      hInv local_watch_url rfl

theorem cleanup_inv (env : Env) (s : CamState) (force : Bool)
    (hInv : SessionInv s) : SessionInv (cleanup env s force).state := by
  unfold cleanup
  split
  · exact hInv
  · rename_i hng
    split
    all_goals rename_i heq
    · rename_i e s1 ev
      split at heq
      · have h := stopStreaming_inv env s hInv
        rw [heq] at h
        simpa using h
      · simp at heq
    · rename_i s1 ev
      have hs1 : s1.stream.mode.isSome = false := by
        split at heq
        · rename_i hac
          have h := stopStreaming_ok_stream env s (by rw [heq]; rfl)
          rw [heq] at h
          simp at h
          rw [h]
          rfl
        · rename_i hac
          simp at heq
          rw [← heq.1]
          simpa [CamStream.is_active] using hac
      have hInv1 : SessionInv s1 := by
        intro hact
        rw [hs1] at hact
        cases hact
      repeat' split
      all_goals intro hact
      all_goals simp_all

theorem applyCall_inv (s : CamState) (c : Call)
    (hInv : SessionInv s) : SessionInv (applyCall s c) := by
  cases c with
  | setup env mode => exact setupCamera_inv env s mode hInv
  | capture env => exact captureJpeg_inv env s hInv
  | startS env mode cfg => exact startStreaming_inv env s mode cfg hInv
  | stopS env => exact stopStreaming_inv env s hInv
  | doCleanup env force => exact cleanup_inv env s force hInv
  | info env => simpa [applyCall, getStreamInfo_state] using hInv
  | status env => simpa [applyCall, getStatus_state] using hInv
  | standby env =>
    simp only [applyCall]
    split
    · exact cleanup_inv env s false hInv
    · exact hInv
  | maxDuration env =>
    simp only [applyCall]
    split
    · split
      · exact stopStreaming_inv env s hInv
      · exact hInv
    · exact hInv

theorem initState_inv : SessionInv initState := by
  intro h
  cases h

theorem runCalls_inv (cs : List Call) : SessionInv (runCalls cs) := by
  unfold runCalls
  induction cs using List.reverseRecOn with
  | nil => exact initState_inv
  | append_singleton cs c ih =>
    rw [List.foldl_append]
    exact applyCall_inv _ c ih

theorem reachable_inv (s : CamState) (h : Reachable s) : SessionInv s := by
  obtain ⟨cs, hcs⟩ := h
  rw [← hcs]
  exact runCalls_inv cs

theorem chkRun_append (tr : List TEvt) (e : TEvt) :
    chkRun (tr ++ [e]) = chkStep (chkRun tr) e := by
  simp [chkRun]

theorem ginit_inv : GInv ginit := by
  refine ⟨by simp [ginit, aInside], by simp [ginit, bInside], rfl⟩

theorem gstep_inv (g : GState) (t : Bool) (h : GInv g) : GInv (gstep g t) := by
  obtain ⟨h1, h2, h3⟩ := h
  cases t
  · show GInv (capStep g)
    cases hap : g.apc
    all_goals rw [hap] at h1
    all_goals simp [aInside] at h1
    all_goals simp only [capStep, hap]
    all_goals repeat' split
    all_goals unfold GInv
    all_goals simp_all [aInside, bInside, chkRun_append, chkStep]
  · show GInv (strStep g)
    cases hbp : g.bpc
    all_goals rw [hbp] at h2
    all_goals simp [bInside] at h2
    all_goals simp only [strStep, hbp]
    all_goals repeat' split
    all_goals unfold GInv
    all_goals simp_all [aInside, bInside, chkRun_append, chkStep]

theorem grun_inv (sched : List Bool) : GInv (grun sched) := by
  unfold grun
  induction sched using List.reverseRecOn with
  | nil => exact ginit_inv
  | append_singleton l t ih =>
    rw [List.foldl_append]
    exact gstep_inv _ t ih

/-- C9: start_streaming with the remote (YouTube) mode and no remote config
fails with the config-required fault before any hardware interaction and
before any validation request, leaving the session state unchanged: the
result is the YoutubeConfigRequiredError, the state is returned untouched,
and the external-call trace is empty. -/
theorem C9_youtube_config_required (env : Env) (s : CamState) :
    startStreaming env s StreamMode.youtube none
      = ⟨Except.error CamError.youtubeConfigRequired, s, []⟩ := rfl

/-- C10: when _camera_lock times out while another operation holds the
guard, the finally clause still releases the guard (it only checks that the
lock is locked, not that this caller acquired it), so after the
lock-timeout RuntimeError the guard is left unlocked even though the
holder has not finished its guarded section. -/
theorem C10_timeout_releases_foreign_lock {α : Type} (availableIn : Nat)
    (body : Except CamError α) (h : lock_timeout < availableIn) :
    (withCameraLock true availableIn body).result
      = Except.error (CamError.runtimeError lockTimeoutMsg) ∧
    (withCameraLock true availableIn body).lockedAfter = false ∧
    cameraLockFinally true = false := by
  unfold withCameraLock cameraLockFinally
  simp [h]

/-- Witness for C10 at a concrete timeout of 11 time units. -/
theorem C10_witness :
    (withCameraLock true 11 (Except.ok 0)).result
      = Except.error (CamError.runtimeError lockTimeoutMsg) ∧
    (withCameraLock true 11 (Except.ok 0)).lockedAfter = false ∧
    cameraLockFinally true = false :=
  C10_timeout_releases_foreign_lock 11 (Except.ok 0) (by decide)

/-- C6: the guard waits at most lock_timeout = 10 time units; an
acquisition that cannot complete within the bound fails with the
lock-timeout RuntimeError instead of blocking, the guard is released on
every exit path of the guarded section (normal or faulting body), and a
guarded operation such as stop_streaming surfaces the same fault with the
state unchanged when the guard times out. -/
theorem C6_lock_guard :
    lock_timeout = 10 ∧
    (∀ (heldByOther : Bool) (availableIn : Nat) (body : Except CamError Nat),
      (withCameraLock heldByOther availableIn body).lockedAfter = false) ∧
    (∀ (heldByOther : Bool) (availableIn : Nat) (body : Except CamError Nat),
      (heldByOther = false ∨ availableIn ≤ lock_timeout) →
      (withCameraLock heldByOther availableIn body).result = body) ∧
    (∀ (availableIn : Nat) (body : Except CamError Nat),
      lock_timeout < availableIn →
      (withCameraLock true availableIn body).result
        = Except.error (CamError.runtimeError lockTimeoutMsg)) ∧
    (∀ (env : Env) (s : CamState), lock_timeout < env.lock_delay →
      (stopStreaming env s).result = Except.error (CamError.runtimeError lockTimeoutMsg) ∧
      (stopStreaming env s).state = s) := by
  refine ⟨rfl, ?_, ?_, ?_, ?_⟩
  · intro heldByOther availableIn body
    unfold withCameraLock cameraLockFinally
    split
    all_goals rfl
  · intro heldByOther availableIn body hfree
    unfold withCameraLock
    rcases hfree with hfree | hfree
    · simp [hfree]
    · have : ¬lock_timeout < availableIn := by omega
      simp [this]
  · intro availableIn body hlt
    unfold withCameraLock
    simp [hlt]
  · intro env s hlt
    unfold stopStreaming
    simp [hlt]

/-- Witness for C6: a timed-out acquisition at 11 units fails with the
lock-timeout fault and releases the guard; a free guard runs the body. -/
theorem C6_witness :
    (withCameraLock true 11 (Except.ok 0)).result
      = Except.error (CamError.runtimeError lockTimeoutMsg) ∧
    (withCameraLock true 11 (Except.ok 0)).lockedAfter = false ∧
    (withCameraLock false 0 (Except.ok 0)).result = Except.ok 0 :=
  ⟨C6_lock_guard.2.2.2.1 11 (Except.ok 0) (by decide),
   C6_lock_guard.2.1 true 11 (Except.ok 0),
   C6_lock_guard.2.2.1 false 0 (Except.ok 0) (Or.inl rfl)⟩

/-- C7 is violated by the code: a capture at time 0 is promised expiry at
time image_ttl_s = 3600, yet the cleanup path of the manager (also
triggered by idle standby) clears the image directory with hls_ttl_s = 60
and deletes the file at time 700, long before its expiry; the periodic
image janitor with the correct TTL would have retained it. -/
theorem C7_early_deletion :
    expiryOf (captureJpeg envOk photoReadyState) = some (envOk.now + image_ttl_s) ∧
    envOk.now + image_ttl_s = 3600 ∧
    cleanupClearImages (some [capturedEntry]) 700 = some [] ∧
    (700 : Int) < 3600 ∧
    cleanupImages (some [capturedEntry]) 700 = some [capturedEntry] := by
  refine ⟨rfl, rfl, ?_, by decide, ?_⟩
  · decide
  · decide

/-- C5 as stated is false: under the schedule ceSched the hardware calls of
a concurrent capture_still and start_streaming interleave - the capture
task issues its create, configure and start calls, then the streaming task
issues five hardware calls, then the capture task resumes with its
capture-frame and capture-metadata calls, so the capture sequence is not
serialized as a unit (its trace forms three alternating blocks). -/
theorem C5_counterexample :
    hwTasks (grun ceSched).trace
      = [false, false, false, true, true, true, true, true, false, false] ∧
    runsCount (hwTasks (grun ceSched).trace) = 3 := by
  constructor
  · rfl
  · rfl

/-- C5 amended: under every schedule of the two concurrent operations
(without lock timeouts), every hardware call issued from inside a guarded
block executes while its task holds the lock, and the two tasks are never
simultaneously inside guarded blocks - so guarded regions are serialized;
interleaving is possible only between the two separately guarded blocks of
capture_jpeg and at the unguarded stream-info metadata read. -/
theorem C5_guarded_regions_serialized (sched : List Bool) :
    guardedAtomic (grun sched).trace = true ∧
    ¬(aInside (grun sched).apc = true ∧ bInside (grun sched).bpc = true) := by
  obtain ⟨h1, h2, h3⟩ := grun_inv sched
  constructor
  · unfold guardedAtomic
    rw [h3]
  · rintro ⟨ha, hb⟩
    have hx := h1.mpr ha
    have hy := h2.mpr hb
    rw [hx] at hy
    cases hy

/-- Witness for C5 amended at the interleaving schedule itself. -/
theorem C5_witness :
    guardedAtomic (grun ceSched).trace = true ∧
    ¬(aInside (grun ceSched).apc = true ∧ bInside (grun ceSched).bpc = true) :=
  C5_guarded_regions_serialized ceSched

/-- C8 as stated is false at a zero TTL: Python treats a zero
time_to_live_s as falsy, so clear_directory deletes every regular file,
including one whose mtime lies in the future - its age -100 is strictly
less than the TTL 0, yet the file is deleted. -/
theorem C8_counterexample :
    futureFile.isFile = true ∧
    (0 : Int) - futureFile.mtime < 0 ∧
    clearDirectory (some [futureFile]) 0 (some 0) = some [] := by
  refine ⟨rfl, by decide, by decide⟩

/-- C8 amended: clear_directory is a no-op on a missing path; otherwise an
entry survives exactly when it is not a regular file or the TTL is present,
nonzero and the age is strictly below it - so with a nonzero TTL a file
strictly younger than the TTL is retained, a file at or above the TTL is
deleted (the boundary age = ttl deletes), an absent or zero TTL deletes
every regular file, and non-file entries are never deleted. -/
theorem C8_clear_directory (now : Int) (ttl : Option Int) (es : List FileEntry)
    (f : FileEntry) (l : List FileEntry) :
    clearDirectory none now ttl = none ∧
    (clearDirectory (some es) now ttl = some l →
      (f ∈ l ↔ f ∈ es ∧ (f.isFile = false ∨
        ∃ t, ttl = some t ∧ t ≠ 0 ∧ now - f.mtime < t))) := by
  constructor
  · rfl
  · intro h
    unfold clearDirectory at h
    injection h with h
    subst h
    rw [List.mem_filter]
    cases ttl with
    | none =>
      simp only [Bool.or_false]
      constructor
      · rintro ⟨hm, hk⟩
        exact ⟨hm, Or.inl (by simpa using hk)⟩
      · rintro ⟨hm, hk | hk⟩
        · exact ⟨hm, by simpa using hk⟩
        · obtain ⟨t, ht, _⟩ := hk
          cases ht
    | some t =>
      constructor
      · rintro ⟨hm, hk⟩
        refine ⟨hm, ?_⟩
        rcases Bool.or_eq_true_iff.mp hk with hk | hk
        · exact Or.inl (by simpa using hk)
        · rcases Bool.and_eq_true_iff.mp hk with ⟨ht, ha⟩
          exact Or.inr ⟨t, rfl, by simpa using ht, by simpa using ha⟩
      · rintro ⟨hm, hk | hk⟩
        · refine ⟨hm, Bool.or_eq_true_iff.mpr (Or.inl (by simpa using hk))⟩
        · obtain ⟨t2, ht2, htz, hage⟩ := hk
          injection ht2 with ht2
          subst ht2
          refine ⟨hm, Bool.or_eq_true_iff.mpr (Or.inr (Bool.and_eq_true_iff.mpr
            ⟨by simpa using htz, by simpa using hage⟩))⟩

/-- Witness for C8 amended: at time 60 with ttl 60 the boundary-age file is
deleted, the younger file and the subdirectory are retained. -/
theorem C8_witness :
    (boundaryFile ∈ demoCleared ↔ boundaryFile ∈ demoDir ∧ (boundaryFile.isFile = false ∨
      ∃ t, (some (60 : Int)) = some t ∧ t ≠ 0 ∧ (60 : Int) - boundaryFile.mtime < t)) ∧
    (youngFile ∈ demoCleared ↔ youngFile ∈ demoDir ∧ (youngFile.isFile = false ∨
      ∃ t, (some (60 : Int)) = some t ∧ t ≠ 0 ∧ (60 : Int) - youngFile.mtime < t)) ∧
    boundaryFile ∉ demoCleared ∧ youngFile ∈ demoCleared ∧ dirEntry ∈ demoCleared :=
  ⟨(C8_clear_directory 60 (some 60) demoDir boundaryFile demoCleared).2 (by decide),
   (C8_clear_directory 60 (some 60) demoDir youngFile demoCleared).2 (by decide),
   by decide, by decide, by decide⟩

/-- C2 as stated is false: with a stream active, start_streaming in YouTube
mode with an absent config fails with the config-required fault, not the
active-stream fault, because the YouTube checks run before the active-stream
check; the state is still unchanged. -/
theorem C2_counterexample :
    activeState.stream.is_active = true ∧
    (startStreaming envOk activeState StreamMode.youtube none).result
      = Except.error CamError.youtubeConfigRequired ∧
    isActiveStreamErrB (startStreaming envOk activeState StreamMode.youtube none).result
      = false ∧
    (startStreaming envOk activeState StreamMode.youtube none).state = activeState := by
  exact ⟨by decide, rfl, rfl, rfl⟩

/-- C2 amended: while a stream is active every start_streaming call fails
and leaves the whole session state (hence the Stream descriptor) unchanged;
the fault is the active-stream fault for the LOCAL mode and for a YouTube
call that passes the config and validation checks, while a YouTube call
with an absent config or a failing validation fails with the
config-required or validation fault, raised before the active check. -/
theorem C2_active_stream_faults (env : Env) (s : CamState) (mode : StreamMode)
    (cfg : Option YoutubeStreamConfig) (hact : s.stream.is_active = true) :
    (startStreaming env s mode cfg).state = s ∧
    isOkB (startStreaming env s mode cfg).result = false ∧
    (mode = StreamMode.localMode →
      (startStreaming env s mode cfg).result
        = Except.error (CamError.activeStream s.stream.mode s.stream.url)) ∧
    (mode = StreamMode.youtube → cfg = none →
      (startStreaming env s mode cfg).result = Except.error CamError.youtubeConfigRequired) ∧
    (∀ c, mode = StreamMode.youtube → cfg = some c → env.validate_ok = false →
      (startStreaming env s mode cfg).result
        = Except.error (CamError.youtubeValidation c.stream_key)) ∧
    (∀ c, mode = StreamMode.youtube → cfg = some c → env.validate_ok = true →
      (startStreaming env s mode cfg).result
        = Except.error (CamError.activeStream s.stream.mode s.stream.url)) := by
  cases mode with
  | youtube =>
    cases cfg with
    | none =>
      refine ⟨rfl, rfl, ?_, fun _ _ => rfl, ?_, ?_⟩
      · intro hmm
        exact absurd hmm (by decide)
      · intro c _ hc _
        exact Option.noConfusion hc
      · intro c _ hc _
        exact Option.noConfusion hc
    | some c =>
      by_cases hv : env.validate_ok = true
      · have hres : startStreaming env s StreamMode.youtube (some c)
            = ⟨Except.error (CamError.activeStream s.stream.mode s.stream.url), s,
                [Event.httpValidate]⟩ := by
          simp only [startStreaming, hv]
          simp [startStreamingChecked, hact]
        rw [hres]
        refine ⟨rfl, rfl, ?_, ?_, ?_, fun _ _ _ _ => rfl⟩
        · intro hmm
          exact absurd hmm (by decide)
        · intro _ hc
          exact Option.noConfusion hc
        · intro c2 _ hc hvf
          rw [hv] at hvf
          cases hvf
      · have hv2 : env.validate_ok = false := by
          revert hv
          cases env.validate_ok <;> simp
        have hres : startStreaming env s StreamMode.youtube (some c)
            = ⟨Except.error (CamError.youtubeValidation c.stream_key), s,
                [Event.httpValidate]⟩ := by
          simp [startStreaming, hv2]
        rw [hres]
        refine ⟨rfl, rfl, ?_, ?_, ?_, ?_⟩
        · intro hmm
          exact absurd hmm (by decide)
        · intro _ hc
          exact Option.noConfusion hc
        · intro c2 _ hc _
          injection hc with hc
          rw [← hc]
        · intro c2 _ _ hvt
          rw [hv2] at hvt
          cases hvt
  | localMode =>
    have hres : startStreaming env s StreamMode.localMode cfg
        = ⟨Except.error (CamError.activeStream s.stream.mode s.stream.url), s, []⟩ := by
      simp only [startStreaming]
      simp [startStreamingChecked, hact]
    rw [hres]
    refine ⟨rfl, rfl, fun _ => rfl, ?_, ?_, ?_⟩
    · intro hmm
      exact absurd hmm (by decide)
    · intro c hmm
      exact absurd hmm (by decide)
    · intro c hmm
      exact absurd hmm (by decide)

/-- Witness for C2 amended: a LOCAL start against the concrete active
session fails with the active-stream fault and changes nothing. -/
theorem C2_witness :
    (startStreaming envOk activeState StreamMode.localMode none).state = activeState ∧
    (startStreaming envOk activeState StreamMode.localMode none).result
      = Except.error (CamError.activeStream activeState.stream.mode activeState.stream.url) := by
  have h := C2_active_stream_faults envOk activeState StreamMode.localMode none (by decide)
  exact ⟨h.1, h.2.2.1 rfl⟩

/-- C4: in every reachable session state, a present stream mode implies
that url and started_at are present and the configured camera mode is
VIDEO; consequently the inconsistent-state (StreamStateError) branch of
get_stream_info is unreachable - it never returns that fault on a
reachable state, whatever the environment. -/
theorem C4_session_invariant (s : CamState) (hr : Reachable s) :
    (s.stream.mode.isSome = true →
      s.stream.url.isSome = true ∧ s.stream.started_at.isSome = true ∧
      s.current_mode = some CameraMode.video) ∧
    ∀ env : Env, isStreamStateErrB (getStreamInfo env s).result = false := by
  have hInv := reachable_inv s hr
  constructor
  · intro hact
    obtain ⟨hu, hst, hcm, _⟩ := hInv hact
    exact ⟨hu, hst, hcm⟩
  · intro env
    by_cases hact : s.stream.mode.isSome = true
    · obtain ⟨hu, hst, hcm, hc⟩ := hInv hact
      obtain ⟨m, hm⟩ := Option.isSome_iff_exists.mp hact
      obtain ⟨u, hu2⟩ := Option.isSome_iff_exists.mp hu
      obtain ⟨t0, ht2⟩ := Option.isSome_iff_exists.mp hst
      obtain ⟨cam, hc2⟩ := Option.isSome_iff_exists.mp hc
      cases hmok : env.capture_metadata_ok
      all_goals simp [getStreamInfo, streamGetInfo, CamStream.is_active, hm, hu2, ht2, hc2,
        hmok, isStreamStateErrB]
    · have hFalse : s.stream.is_active = false := by
        simpa [CamStream.is_active] using hact
      simp [getStreamInfo, hFalse, isStreamStateErrB]

/-- Witness for C4 at the concrete reachable active session state. -/
theorem C4_witness :
    (activeState.stream.mode.isSome = true →
      activeState.stream.url.isSome = true ∧ activeState.stream.started_at.isSome = true ∧
      activeState.current_mode = some CameraMode.video) ∧
    ∀ env : Env, isStreamStateErrB (getStreamInfo env activeState).result = false :=
  C4_session_invariant activeState ⟨[Call.startS envOk StreamMode.localMode none], rfl⟩

/-- C3: on any reachable state, when the guard is acquired in time,
stop_streaming raises the no-stream-active fault exactly when no stream is
active, and in that case changes nothing and issues no external call; when
a stream is active and the hardware stop and directory clearing succeed,
it stops the recording (hwStopRecording is issued), resets the Stream
sub-state to empty, and a subsequent get_stream_info returns absent. -/
theorem C3_stop_streaming (env : Env) (s : CamState) (hr : Reachable s)
    (hl : env.lock_delay ≤ lock_timeout) :
    ((stopStreaming env s).result = Except.error (CamError.runtimeError noStreamActiveMsg)
        ↔ s.stream.is_active = false) ∧
    (s.stream.is_active = false →
      (stopStreaming env s).state = s ∧ (stopStreaming env s).events = []) ∧
    (s.stream.is_active = true → env.stop_recording_ok = true → env.clear_ok = true →
      (stopStreaming env s).result = Except.ok () ∧
      (stopStreaming env s).state.stream = CamStream.empty ∧
      Event.hwStopRecording ∈ (stopStreaming env s).events ∧
      ∀ env2 : Env, (getStreamInfo env2 (stopStreaming env s).state).result
        = Except.ok none) := by
  have hInv := reachable_inv s hr
  have hnl : ¬lock_timeout < env.lock_delay := by omega
  by_cases hact : s.stream.is_active = true
  · have hcam : s.camera.isSome = true :=
      (hInv (by simpa [CamStream.is_active] using hact)).2.2.2
    have hcond : (s.stream.is_active && s.camera.isSome) = true := by
      simp [hact, hcam]
    have hne : (stopStreaming env s).result
        ≠ Except.error (CamError.runtimeError noStreamActiveMsg) := by
      unfold stopStreaming
      simp only [hnl, if_false, hcond, if_true]
      repeat' split
      all_goals simp [noStreamActiveMsg, lockTimeoutMsg]
    refine ⟨⟨fun hres => absurd hres hne, ?_⟩, ?_, ?_⟩
    · intro hf
      rw [hact] at hf
      cases hf
    · intro hf
      rw [hact] at hf
      cases hf
    intro _ hstop hclear
    have hres : (stopStreaming env s).result = Except.ok ()
        ∧ (stopStreaming env s).state.stream = CamStream.empty
        ∧ Event.hwStopRecording ∈ (stopStreaming env s).events := by
      unfold stopStreaming
      simp only [hnl, if_false, hcond, if_true, hstop, hclear]
      repeat' split
      all_goals simp_all
    refine ⟨hres.1, hres.2.1, hres.2.2, ?_⟩
    intro env2
    have hempty := hres.2.1
    simp [getStreamInfo, CamStream.is_active, hempty, CamStream.empty]
  · have hactF : s.stream.is_active = false := by
      simpa using hact
    have hres : stopStreaming env s
        = ⟨Except.error (CamError.runtimeError noStreamActiveMsg), s, []⟩ := by
      unfold stopStreaming
      simp [hnl, hactF]
    rw [hres]
    refine ⟨⟨fun _ => hactF, fun _ => rfl⟩, fun _ => ⟨rfl, rfl⟩, ?_⟩
    intro hT
    exact absurd hT (by simp [hactF])

/-- Witness for C3 at the concrete reachable active session: stopping
succeeds, empties the Stream and makes get_stream_info return absent. -/
theorem C3_witness :
    (stopStreaming envOk activeState).result = Except.ok () ∧
    (stopStreaming envOk activeState).state.stream = CamStream.empty ∧
    (getStreamInfo envOk (stopStreaming envOk activeState).state).result
      = Except.ok none := by
  have h := C3_stop_streaming envOk activeState
    ⟨[Call.startS envOk StreamMode.localMode none], rfl⟩ (by decide)
  have h3 := h.2.2 (by decide) rfl rfl
  exact ⟨h3.1, h3.2.1, h3.2.2.2 envOk⟩

theorem setupCamera_ok_of (env : Env) (s : CamState) (mode : CameraMode)
    (hl : env.lock_delay ≤ lock_timeout) (hc : env.create_ok = true)
    (hsp : env.hw_stop_ok = true) (hst : env.hw_start_ok = true)
    (hna : s.stream.is_active = false ∨ mode = CameraMode.video) :
    isOkB (setupCamera env s mode).result = true := by
  have hnl : ¬lock_timeout < env.lock_delay := by omega
  unfold setupCamera
  repeat' split
  all_goals simp_all [isOkB]

theorem getFfmpegOutput_ok (env : Env) (mode : StreamMode)
    (cfg : Option YoutubeStreamConfig) (hffo : env.ffmpeg_ok = true)
    (hcfg : mode = StreamMode.youtube → cfg.isSome = true) :
    getFfmpegOutput env mode cfg = Except.ok () := by
  unfold getFfmpegOutput
  cases mode <;> cases cfg <;> simp_all

theorem getFfmpegOutput_fail (env : Env) (mode : StreamMode)
    (cfg : Option YoutubeStreamConfig) (hffo : env.ffmpeg_ok = false)
    (hcfg : mode = StreamMode.youtube → cfg.isSome = true) :
    getFfmpegOutput env mode cfg = Except.error (CamError.externalError ffmpegFailMsg) := by
  unfold getFfmpegOutput
  cases mode <;> cases cfg <;> simp_all

theorem checked_fail_wrap (env : Env) (s : CamState) (mode : StreamMode)
    (cfg : Option YoutubeStreamConfig) (ev0 : List Event) (u : String)
    (hna : s.stream.is_active = false) (hurl : getStreamUrl mode cfg = Except.ok u)
    (hcfg : mode = StreamMode.youtube → cfg.isSome = true)
    (hl : env.lock_delay ≤ lock_timeout) (hc : env.create_ok = true)
    (hsp : env.hw_stop_ok = true) (hst : env.hw_start_ok = true)
    (hff : env.ffmpeg_ok = false ∨ env.start_recording_ok = false) :
    (∃ cause, (startStreamingChecked env s mode cfg ev0).result
        = Except.error (wrapStart cause)) ∧
    (startStreamingChecked env s mode cfg ev0).state.stream = s.stream := by
  have hnl : ¬lock_timeout < env.lock_delay := by omega
  have hnat : ¬s.stream.is_active = true := by simp [hna]
  unfold startStreamingChecked
  rw [if_neg hnat]
  cases hsr : setupCamera env s CameraMode.video with
  | mk r s1 ev1 =>
    have hok := setupCamera_ok_of env s CameraMode.video hl hc hsp hst (Or.inr rfl)
    rw [hsr] at hok
    have hstr : s1.stream = s.stream := by
      have h := setupCamera_stream env s CameraMode.video
      rw [hsr] at h
      simpa using h
    cases r with
    | error e => simp [isOkB] at hok
    | ok cam =>
      simp only []
      rw [if_neg hnl]
      cases hffo : env.ffmpeg_ok with
      | false =>
        rw [getFfmpegOutput_fail env mode cfg hffo hcfg]
        exact ⟨⟨CamError.externalError ffmpegFailMsg, rfl⟩, hstr⟩
      | true =>
        have hrec : env.start_recording_ok = false := by
          rcases hff with hff | hff
          · rw [hffo] at hff
            cases hff
          · exact hff
        rw [getFfmpegOutput_ok env mode cfg hffo hcfg]
        simp only [hrec]
        exact ⟨⟨CamError.externalError startRecordingFailMsg, rfl⟩, hstr⟩

theorem checked_info_fail (env : Env) (s : CamState) (mode : StreamMode)
    (cfg : Option YoutubeStreamConfig) (ev0 : List Event) (u : String)
    (hna : s.stream.is_active = false) (hurl : getStreamUrl mode cfg = Except.ok u)
    (hcfg : mode = StreamMode.youtube → cfg.isSome = true)
    (hl : env.lock_delay ≤ lock_timeout) (hc : env.create_ok = true)
    (hsp : env.hw_stop_ok = true) (hst : env.hw_start_ok = true)
    (hffo : env.ffmpeg_ok = true) (hrec : env.start_recording_ok = true)
    (hmeta : env.capture_metadata_ok = false) :
    (startStreamingChecked env s mode cfg ev0).result
      = Except.error (CamError.runtimeError captureMetadataFailMsg) ∧
    (startStreamingChecked env s mode cfg ev0).state.stream.mode = some mode := by
  have hnl : ¬lock_timeout < env.lock_delay := by omega
  have hnat : ¬s.stream.is_active = true := by simp [hna]
  unfold startStreamingChecked
  rw [if_neg hnat]
  cases hsr : setupCamera env s CameraMode.video with
  | mk r s1 ev1 =>
    have hok := setupCamera_ok_of env s CameraMode.video hl hc hsp hst (Or.inr rfl)
    rw [hsr] at hok
    have hshape := setupCamera_ok_shape env s CameraMode.video (by rw [hsr]; exact hok)
    rw [hsr] at hshape
    simp at hshape
    cases r with
    | error e => simp [isOkB] at hok
    | ok cam =>
      simp only []
      rw [if_neg hnl]
      rw [getFfmpegOutput_ok env mode cfg hffo hcfg]
      simp only [hrec, Bool.not_true, Bool.false_eq_true, if_false]
      rw [hurl]
      simp only []
      have hcam1 : s1.camera.isSome = true := hshape.2
      simp [getStreamInfo, CamStream.is_active, hcam1, hmeta]

/-- C1 as stated is false: starting from the closed initial state with an
environment in which only the post-start metadata fetch fails, the call
fails with the plain metadata RuntimeError (not the stream-start wrapper),
the Stream is left fully populated rather than empty, and current_mode has
changed from none to VIDEO - the pre-call state is not restored. -/
theorem C1_counterexample :
    initState.stream.mode = none ∧
    initState.current_mode = none ∧
    (startStreaming ceMetaFailEnv initState StreamMode.localMode none).result
      = Except.error (CamError.runtimeError captureMetadataFailMsg) ∧
    isStreamStartWrap
      (startStreaming ceMetaFailEnv initState StreamMode.localMode none).result = false ∧
    (startStreaming ceMetaFailEnv initState StreamMode.localMode none).state.stream.mode
      = some StreamMode.localMode ∧
    (startStreaming ceMetaFailEnv initState StreamMode.localMode none).state.current_mode
      = some CameraMode.video := by
  set_option maxRecDepth 4000 in
  refine ⟨rfl, rfl, rfl, by decide, rfl, rfl⟩

/-- C1 amended: when the preconditions pass and the VIDEO setup succeeds,
a failure of the encoder-output construction or of start_recording raises
the generic stream-start RuntimeError wrapping the cause and leaves the
Stream sub-state unchanged (still empty), although the camera handle and
current_mode may have been changed by the setup step; a failure of the
post-start stream-info fetch instead propagates the metadata RuntimeError
unwrapped and leaves the Stream populated, the recording running. -/
theorem C1_start_failure_behaviour :
    (∀ (env : Env) (s : CamState) (mode : StreamMode) (cfg : Option YoutubeStreamConfig),
      s.stream.is_active = false →
      (mode = StreamMode.youtube → cfg.isSome = true) →
      env.validate_ok = true →
      env.lock_delay ≤ lock_timeout → env.create_ok = true →
      env.hw_stop_ok = true → env.hw_start_ok = true →
      (env.ffmpeg_ok = false ∨ env.start_recording_ok = false) →
      (∃ cause, (startStreaming env s mode cfg).result = Except.error (wrapStart cause)) ∧
      (startStreaming env s mode cfg).state.stream = s.stream) ∧
    (∀ (env : Env) (s : CamState) (mode : StreamMode) (cfg : Option YoutubeStreamConfig),
      s.stream.is_active = false →
      (mode = StreamMode.youtube → cfg.isSome = true) →
      env.validate_ok = true →
      env.lock_delay ≤ lock_timeout → env.create_ok = true →
      env.hw_stop_ok = true → env.hw_start_ok = true →
      env.ffmpeg_ok = true → env.start_recording_ok = true →
      env.capture_metadata_ok = false →
      (startStreaming env s mode cfg).result
        = Except.error (CamError.runtimeError captureMetadataFailMsg) ∧
      (startStreaming env s mode cfg).state.stream.mode = some mode) := by
  constructor
  · intro env s mode cfg hna hcfg hv hl hc hsp hst hff
    cases mode with
    | youtube =>
      cases cfg with
      | none => exact absurd (hcfg rfl) (by decide)
      | some c =>
        have hres : startStreaming env s StreamMode.youtube (some c)
            = startStreamingChecked env s StreamMode.youtube (some c) [Event.httpValidate] := by
          simp [startStreaming, hv]
        rw [hres]
        exact checked_fail_wrap env s StreamMode.youtube (some c) [Event.httpValidate]
          (getBroadcastUrl c) hna rfl hcfg hl hc hsp hst hff
    | localMode =>
      have hres : startStreaming env s StreamMode.localMode cfg
          = startStreamingChecked env s StreamMode.localMode cfg [] := by
        simp [startStreaming]
      rw [hres]
      exact checked_fail_wrap env s StreamMode.localMode cfg []
        local_watch_url hna rfl hcfg hl hc hsp hst hff
  · intro env s mode cfg hna hcfg hv hl hc hsp hst hffo hrec hmeta
    cases mode with
    | youtube =>
      cases cfg with
      | none => exact absurd (hcfg rfl) (by decide)
      | some c =>
        have hres : startStreaming env s StreamMode.youtube (some c)
            = startStreamingChecked env s StreamMode.youtube (some c) [Event.httpValidate] := by
          simp [startStreaming, hv]
        rw [hres]
        exact checked_info_fail env s StreamMode.youtube (some c) [Event.httpValidate]
          (getBroadcastUrl c) hna rfl hcfg hl hc hsp hst hffo hrec hmeta
    | localMode =>
      have hres : startStreaming env s StreamMode.localMode cfg
          = startStreamingChecked env s StreamMode.localMode cfg [] := by
        simp [startStreaming]
      rw [hres]
      exact checked_info_fail env s StreamMode.localMode cfg []
        local_watch_url hna rfl hcfg hl hc hsp hst hffo hrec hmeta

/-- Witness for C1 amended: the encoder-output failure keeps the Stream
empty and raises the wrapper; the info-fetch failure leaves the populated
Stream behind. -/
theorem C1_witness :
    (∃ cause, (startStreaming ceFfmpegFailEnv initState StreamMode.localMode none).result
      = Except.error (wrapStart cause)) ∧
    (startStreaming ceFfmpegFailEnv initState StreamMode.localMode none).state.stream
      = initState.stream ∧
    (startStreaming ceMetaFailEnv initState StreamMode.localMode none).result
      = Except.error (CamError.runtimeError captureMetadataFailMsg) ∧
    (startStreaming ceMetaFailEnv initState StreamMode.localMode none).state.stream.mode
      = some StreamMode.localMode := by
  have h1 := C1_start_failure_behaviour.1 ceFfmpegFailEnv initState StreamMode.localMode none
    rfl (by decide) rfl (by decide) rfl rfl rfl (Or.inl rfl)
  have h2 := C1_start_failure_behaviour.2 ceMetaFailEnv initState StreamMode.localMode none
    rfl (by decide) rfl (by decide) rfl rfl rfl rfl rfl rfl
  exact ⟨h1.1, h1.2, h2.1, h2.2⟩
